import Mathlib

/-!
Verification development for the agentic-ad-generator repository.

The Python sources are shallowly embedded below:
* `Json` models the values produced by Python's `json.loads` (numbers are
  modelled as rationals; Python's separate `int`/`float` types both satisfy
  `isinstance(x, (int, float))`, which `pyNum?` reflects, including the fact
  that Python `bool` is a subclass of `int`).
* `json_loads` models the strict parser `json.loads` on a text input.
* Exceptions are modelled with `Except PyExc`; exception message texts are
  abstracted (no claim depends on them).
* `round2` models `round(x, 2)` on the mathematical value: round half up at
  two decimals.  (CPython rounds the *binary float* half to even; the two
  agree except on exact decimal ties, which no proved statement depends on.)
-/

set_option autoImplicit false

namespace AdGen

/-- Python exceptions relevant to the embedded code paths. -/
inductive PyExc where
  | typeError
  | attributeError
  | valueError (msg : String)
  deriving Repr, DecidableEq

/-- Values produced by `json.loads`: null, booleans, numbers (ℚ), strings,
arrays and objects (insertion-ordered key/value lists with unique keys). -/
inductive Json where
  | null
  | bool (b : Bool)
  | num (q : ℚ)
  | str (s : String)
  | arr (xs : List Json)
  | obj (kvs : List (String × Json))
  deriving Repr, Inhabited

namespace Json

/-- Dictionary lookup (`d[k]` / `d.get(k)` on an object). -/
def lookup (j : Json) (k : String) : Option Json :=
  match j with
  | .obj kvs => kvs.lookup k
  | _ => none

/-- Models `d.get(k, default)` on an object known to be a dict. -/
def getD (j : Json) (k : String) (d : Json) : Json :=
  (j.lookup k).getD d

/-- Models `x.get(k, default)` on an arbitrary value: non-dicts have no `get`
attribute, so Python raises `AttributeError`. -/
def pyGetE (j : Json) (k : String) (d : Json) : Except PyExc Json :=
  match j with
  | .obj kvs => .ok ((kvs.lookup k).getD d)
  | _ => .error .attributeError

/-- Assignment `d[k] = v` on a dict: replaces the value of an existing key in
place (keeping its position) or appends a fresh key. -/
def setKey : List (String × Json) → String → Json → List (String × Json)
  | [], k, v => [(k, v)]
  | (k', v') :: rest, k, v =>
      if k' = k then (k, v) :: rest else (k', v') :: setKey rest k v

/-- Python truthiness of a json-shaped value. -/
def pyTruthy : Json → Bool
  | .null => false
  | .bool b => b
  | .num q => if q = 0 then false else true
  | .str s => if s = "" then false else true
  | .arr xs => !xs.isEmpty
  | .obj kvs => !kvs.isEmpty

/-- Models `a or b` in Python. -/
def pyOr (a b : Json) : Json := if a.pyTruthy then a else b

/-- Models `isinstance(x, (int, float))` together with `float(x)` on success.
Python `bool` is a subclass of `int`, so `True`/`False` count as 1/0. -/
def pyNum? : Json → Option ℚ
  | .num q => some q
  | .bool b => some (if b then 1 else 0)
  | _ => none

end Json

/-- Models `round(x, 2)` on the mathematical value (half away from zero is modelled
as half up; see the module comment). -/
def round2 (q : ℚ) : ℚ := (⌊q * 100 + 1 / 2⌋ : ℚ) / 100

/-- Models `round(x, 3)`, used for the file size in megabytes. -/
def round3 (q : ℚ) : ℚ := (⌊q * 1000 + 1 / 2⌋ : ℚ) / 1000

/-! ### Python string operations used by the parse routines -/

/-- Characters stripped by Python's `str.strip()` and matched by `\s`, on the
printable-ASCII domain.  Python additionally strips/matches the control
characters `\x1c`–`\x1f`, `\x85`, `\xa0` and the Unicode spaces; the theorems
quantifying over arbitrary response texts therefore carry a `plainAscii`
hypothesis restricting to the domain where this model and CPython agree. -/
def isPySpace (c : Char) : Bool :=
  c = ' ' || c = '\t' || c = '\n' || c = '\r' || c = '\x0b' || c = '\x0c'

/-- Models `s.strip()`. -/
def pyStrip (s : String) : String :=
  ⟨((s.data.dropWhile isPySpace).reverse.dropWhile isPySpace).reverse⟩

/-- Models `re.sub(r"^```(?:json)?\s*", "", s, flags=re.IGNORECASE)`. -/
def stripLeadingFence (s : String) : String :=
  match s.data with
  | '`' :: '`' :: '`' :: rest =>
      let rest1 :=
        match rest with
        | c1 :: c2 :: c3 :: c4 :: tail =>
            if c1.toLower = 'j' && c2.toLower = 's' && c3.toLower = 'o' && c4.toLower = 'n' then
              tail
            else rest
        | _ => rest
      ⟨rest1.dropWhile isPySpace⟩
  | _ => s

/-- Models `re.sub(r"\s*```$", "", s)` for a string with no trailing whitespace
(the routines always `strip()` first, so `$` only matches at the very end). -/
def stripTrailingFence (s : String) : String :=
  match s.data.reverse with
  | '`' :: '`' :: '`' :: rest => ⟨(rest.dropWhile isPySpace).reverse⟩
  | _ => s

/-- The fence-stripping prefix shared by every agent's parse routine:
`strip()`, then remove a leading and a trailing markdown fence. -/
def cleanResponse (s : String) : String :=
  stripTrailingFence (stripLeadingFence (pyStrip s))

/-- Models `s.find(c)`: index of the first occurrence, if any. -/
def pyFind (cs : List Char) (c : Char) : Option Nat :=
  cs.findIdx? (· = c)

/-- Models `s.rfind(c)`: index of the last occurrence, if any. -/
def pyRfind (cs : List Char) (c : Char) : Option Nat :=
  (cs.reverse.findIdx? (· = c)).map (fun k => cs.length - 1 - k)

/-- Models `cleaned[start_idx:end_idx]` with `start_idx = cleaned.find("{")` and
`end_idx = cleaned.rfind("}") + 1`, guarded by
`start_idx != -1 and end_idx > start_idx` exactly as in the sources. -/
def bracedSubstring (s : String) : Option String :=
  let cs := s.data
  match pyFind cs '{' with
  | none => none
  | some i =>
      match pyRfind cs '}' with
      | none => none
      | some j =>
          if i < j + 1 then some ⟨(cs.drop i).take (j + 1 - i)⟩ else none

/-! ### A model of `json.loads` (strict parse)

Recursive-descent parser with fuel.  Faithful to the JSON grammar accepted by
`json.loads`: optional whitespace (space, tab, LF, CR), `null`/`true`/`false`,
numbers without leading zeros or bare dots, strings with the standard escapes
(`\uXXXX` is mapped code-unit-wise; surrogate pairing is not modelled), arrays
and objects.  Duplicate object keys keep the first position and the last value,
as Python dicts do. -/

def isJsonWs (c : Char) : Bool := c = ' ' || c = '\t' || c = '\n' || c = '\r'

def skipWs (cs : List Char) : List Char := cs.dropWhile isJsonWs

def digitVal (c : Char) : Option Nat :=
  if '0' ≤ c ∧ c ≤ '9' then some (c.toNat - '0'.toNat) else none

def hexVal (c : Char) : Option Nat :=
  if '0' ≤ c ∧ c ≤ '9' then some (c.toNat - '0'.toNat)
  else if 'a' ≤ c ∧ c ≤ 'f' then some (c.toNat - 'a'.toNat + 10)
  else if 'A' ≤ c ∧ c ≤ 'F' then some (c.toNat - 'A'.toNat + 10)
  else none

/-- Consume a run of digits, returning value, digit count and the rest. -/
def takeDigits : List Char → Nat → Nat → Nat × Nat × List Char
  | [], acc, n => (acc, n, [])
  | c :: cs, acc, n =>
      match digitVal c with
      | some d => takeDigits cs (acc * 10 + d) (n + 1)
      | none => (acc, n, c :: cs)

/-- Parse a JSON number (grammar: `-? (0 | [1-9][0-9]*) (. [0-9]+)? ([eE][+-]?[0-9]+)?`). -/
def parseNumber (cs : List Char) : Option (ℚ × List Char) := do
  let (neg, cs) := match cs with
    | '-' :: rest => (true, rest)
    | _ => (false, cs)
  let (ival, n, cs1) := takeDigits cs 0 0
  if n = 0 then none else
  -- reject leading zeros such as "01"
  match cs with
  | '0' :: _ => if n ≠ 1 then none else pure ()
  | _ => pure ()
  let (q, cs2) ←
    match cs1 with
    | '.' :: rest =>
        let (fval, m, rest') := takeDigits rest 0 0
        if m = 0 then none
        else some ((ival : ℚ) + (fval : ℚ) / ((10 : ℚ) ^ m), rest')
    | _ => some ((ival : ℚ), cs1)
  let (q, cs3) ←
    match cs2 with
    | e :: rest =>
        if e = 'e' ∨ e = 'E' then
          let (esign, rest1) := match rest with
            | '-' :: r => (true, r)
            | '+' :: r => (false, r)
            | _ => (false, rest)
          let (eval, k, rest2) := takeDigits rest1 0 0
          if k = 0 then none
          else some (if esign then q / (10 : ℚ) ^ eval else q * (10 : ℚ) ^ eval, rest2)
        else some (q, cs2)
    | [] => some (q, cs2)
  some (if neg then -q else q, cs3)

/-- Parse the body of a JSON string after the opening quote (fuel-driven so
that evaluation stays structural). -/
def parseStringBody : Nat → List Char → List Char → Option (String × List Char)
  | 0, _, _ => none
  | _ + 1, [], _ => none
  | _ + 1, '"' :: rest, acc => some (⟨acc.reverse⟩, rest)
  | fuel + 1, '\\' :: esc, acc =>
      (match esc with
      | '"' :: r => parseStringBody fuel r ('"' :: acc)
      | '\\' :: r => parseStringBody fuel r ('\\' :: acc)
      | '/' :: r => parseStringBody fuel r ('/' :: acc)
      | 'b' :: r => parseStringBody fuel r ('\x08' :: acc)
      | 'f' :: r => parseStringBody fuel r ('\x0c' :: acc)
      | 'n' :: r => parseStringBody fuel r ('\n' :: acc)
      | 'r' :: r => parseStringBody fuel r ('\r' :: acc)
      | 't' :: r => parseStringBody fuel r ('\t' :: acc)
      | 'u' :: h1 :: h2 :: h3 :: h4 :: r =>
          (match hexVal h1, hexVal h2, hexVal h3, hexVal h4 with
          | some a, some b, some c, some d =>
              parseStringBody fuel r (Char.ofNat (((a * 16 + b) * 16 + c) * 16 + d) :: acc)
          | _, _, _, _ => none)
      | _ => none)
  | fuel + 1, c :: rest, acc =>
      if c.toNat < 0x20 then none else parseStringBody fuel rest (c :: acc)

/-- Insert into an object under Python-dict semantics: an existing key keeps
its position and takes the new value; a fresh key is appended. -/
def objInsert (kvs : List (String × Json)) (k : String) (v : Json) : List (String × Json) :=
  Json.setKey kvs k v

mutual

/-- Parse one JSON value (leading whitespace allowed). -/
def parseValue : Nat → List Char → Option (Json × List Char)
  | 0, _ => none
  | fuel + 1, cs =>
      match skipWs cs with
      | [] => none
      | 'n' :: 'u' :: 'l' :: 'l' :: rest => some (.null, rest)
      | 't' :: 'r' :: 'u' :: 'e' :: rest => some (.bool true, rest)
      | 'f' :: 'a' :: 'l' :: 's' :: 'e' :: rest => some (.bool false, rest)
      | '"' :: rest =>
          match parseStringBody (rest.length + 1) rest [] with
          | some (s, rest') => some (.str s, rest')
          | none => none
      | '[' :: rest =>
          (match skipWs rest with
           | ']' :: rest' => some (.arr [], rest')
           | _ =>
              match parseItems fuel rest [] with
              | some (xs, rest') => some (.arr xs, rest')
              | none => none)
      | '{' :: rest =>
          (match skipWs rest with
           | '}' :: rest' => some (.obj [], rest')
           | _ =>
              match parseMembers fuel rest [] with
              | some (kvs, rest') => some (.obj kvs, rest')
              | none => none)
      | c :: rest =>
          if c = '-' ∨ (digitVal c).isSome then
            match parseNumber (c :: rest) with
            | some (q, rest') => some (.num q, rest')
            | none => none
          else none

/-- Parse the (non-empty) comma-separated items of an array, up to `]`. -/
def parseItems : Nat → List Char → List Json → Option (List Json × List Char)
  | 0, _, _ => none
  | fuel + 1, cs, acc =>
      match parseValue fuel cs with
      | none => none
      | some (v, rest) =>
          match skipWs rest with
          | ',' :: rest' => parseItems fuel rest' (v :: acc)
          | ']' :: rest' => some ((v :: acc).reverse, rest')
          | _ => none

/-- Parse the (non-empty) comma-separated members of an object, up to `}`. -/
def parseMembers : Nat → List Char → List (String × Json) →
    Option (List (String × Json) × List Char)
  | 0, _, _ => none
  | fuel + 1, cs, acc =>
      match skipWs cs with
      | '"' :: rest =>
          (match parseStringBody (rest.length + 1) rest [] with
           | none => none
           | some (k, rest1) =>
              match skipWs rest1 with
              | ':' :: rest2 =>
                  (match parseValue fuel rest2 with
                   | none => none
                   | some (v, rest3) =>
                      let acc' := objInsert acc k v
                      match skipWs rest3 with
                      | ',' :: rest4 => parseMembers fuel rest4 acc'
                      | '}' :: rest4 => some (acc', rest4)
                      | _ => none)
              | _ => none)
      | _ => none

end

/-- Models `json.loads(s)`: strict parse of the whole text, `none` on
`json.JSONDecodeError`.  CPython additionally accepts the non-standard float
tokens `NaN`, `Infinity` and `-Infinity`, which have no rational value; on
inputs containing those tokens this model reports failure where CPython
parses, so the theorems that conclude from a parse *failure* carry a
`noNonFiniteTokens` hypothesis excluding them (a parse *success* of the model
agrees with CPython on the `plainAscii` domain). -/
def json_loads (s : String) : Option Json :=
  match parseValue (s.length + 1) s.data with
  | some (v, rest) => if skipWs rest = [] then some v else none
  | none => none

/-! ### The agents' response-parsing routines

`_parse_json_response` in `qa_agent.py` / `visual_designer.py` and
`_parse_creative_response` in `creative_director.py` share one algorithm:
strip fences, strict-parse the whole text, strict-parse the first-`{`-to-
last-`}` substring, else return the fallback.  `script_analyzer.py`'s
`_parse_analysis_response` additionally runs `_validate_timing` on every
successfully parsed value, inside a `try` that catches only
`json.JSONDecodeError`. -/

/-- Models `_parse_json_response(response, fallback)` (qa_agent / visual_designer). -/
def parse_json_response (response : String) (fallback : Json) : Json :=
  let cleaned := cleanResponse response
  match json_loads cleaned with
  | some j => j
  | none =>
      match bracedSubstring cleaned with
      | some sub =>
          match json_loads sub with
          | some j => j
          | none => fallback
      | none => fallback

/-- Models `_parse_creative_response(response)` (creative_director): same algorithm,
final fallback `{"raw_response": response}`. -/
def parse_creative_response (response : String) : Json :=
  parse_json_response response (.obj [("raw_response", .str response)])

/-- The fallback passed to `_parse_json_response` by
`visual_designer._match_images_to_scenes` (lines 159–161). -/
def match_images_fallback : Json :=
  .obj [("scene_matches", .arr []), ("missing_visuals", .arr [])]

/-- Models `x == "scenes"` under Python equality, for list membership tests. -/
def isScenesStr : Json → Bool
  | .str s => s == "scenes"
  | _ => false

/-- Prefix test for character lists. -/
def listPre : List Char → List Char → Bool
  | [], _ => true
  | _ :: _, [] => false
  | a :: as, b :: bs => a == b && listPre as bs

/-- Python substring containment `needle in hay`. -/
def listSub (needle : List Char) : List Char → Bool
  | [] => needle.isEmpty
  | b :: bs => listPre needle (b :: bs) || listSub needle bs

/-- Plain printable-ASCII text (ASCII whitespace from `isPySpace` allowed):
the domain on which `pyStrip`/`stripLeadingFence`/`stripTrailingFence`
coincide with Python's `str.strip()` and the `re.sub` fence patterns, since
all of Python's extra whitespace (`\x1c`–`\x1f`, `\x85`, `\xa0`, Unicode
spaces) is excluded. -/
def okChar (c : Char) : Bool :=
  c.toNat < 128 && (32 ≤ c.toNat || isPySpace c)

/-- The whole text is in the ASCII domain of `okChar`. -/
def plainAscii (s : String) : Bool := s.data.all okChar

/-- No occurrence of CPython's non-standard `json.loads` float tokens: under
this (syntactic, slightly conservative) guard, a parse failure of
`json_loads` implies a `json.JSONDecodeError` in CPython, since `NaN`,
`Infinity` and `-Infinity` are the only inputs CPython accepts beyond the
JSON grammar modelled here. -/
def noNonFiniteTokens (s : String) : Bool :=
  !(listSub "NaN".data s.data) && !(listSub "Infinity".data s.data)

/-- The numeric contribution of one scene dict to the duration sum:
`float(s.get("duration"))` when `isinstance(dur, (int, float))`, else 0. -/
def durOf (skvs : List (String × Json)) : ℚ :=
  match Json.pyNum? ((skvs.lookup "duration").getD .null) with
  | some q => q
  | none => 0

/-- Sum of `float(s.get("duration"))` over the scene list, counting only
values with `isinstance(dur, (int, float))`; `s.get` raises
`AttributeError` on a non-dict element. -/
def sumDurations : List Json → Except PyExc ℚ
  | [] => .ok 0
  | s :: rest =>
      match s with
      | .obj skvs => (sumDurations rest).map (fun t => durOf skvs + t)
      | _ => .error .attributeError

/-- Models `_validate_timing(analysis)` (script_analyzer lines 151–181).  Returns the
(possibly mutated) analysis and whether the duration-mismatch warning fired;
`.error` models an uncaught exception escaping the routine. -/
def validate_timing (analysis : Json) : Except PyExc (Json × Bool) :=
  match analysis with
  -- membership test `"scenes" not in analysis` raises TypeError on
  -- non-container values
  | .null | .bool _ | .num _ => .error .typeError
  -- on a string the membership test is substring search; if it succeeds,
  -- `analysis["scenes"]` raises TypeError (string indices must be integers)
  | .str s =>
      if listSub "scenes".data s.data then .error .typeError else .ok (analysis, false)
  -- on a list the membership test is element search; if it succeeds,
  -- `analysis["scenes"]` raises TypeError (list indices must be integers)
  | .arr xs =>
      if xs.any isScenesStr then .error .typeError else .ok (analysis, false)
  | .obj kvs =>
      match kvs.lookup "scenes" with
      | none => .ok (analysis, false)
      | some scenesJ =>
          match scenesJ with
          | .arr scenes =>
              match Json.pyNum? ((kvs.lookup "total_duration").getD .null) with
              | none => .ok (analysis, false)
              | some target =>
                  match sumDurations scenes with
                  | .error e => .error e
                  | .ok total =>
                      let warned := if 1 < |total - target| then true else false
                      match scenes.getLast? with
                      | none => .ok (analysis, warned)
                      | some last =>
                          if |total - target| ≤ 1 then
                            match last with
                            | .obj lkvs =>
                                (match Json.pyNum? ((lkvs.lookup "duration").getD .null) with
                                 | none => .ok (analysis, warned)
                                 | some d0 =>
                                    let delta := target - total
                                    let newDur := round2 (d0 + delta)
                                    let lkvs1 := Json.setKey lkvs "duration" (.num newDur)
                                    let lkvs2 :=
                                      match Json.pyNum? ((lkvs1.lookup "start_time").getD .null) with
                                      | some st =>
                                          Json.setKey lkvs1 "end_time" (.num (round2 (st + newDur)))
                                      | none => lkvs1
                                    let scenes' := scenes.dropLast ++ [Json.obj lkvs2]
                                    .ok (.obj (Json.setKey kvs "scenes" (.arr scenes')), warned))
                            | _ => .error .attributeError
                          else .ok (analysis, warned)
          | _ => .ok (analysis, false)

/-- Models `_parse_analysis_response(response)` (script_analyzer lines 123–149).
The `try` blocks catch only `json.JSONDecodeError`, so an exception raised by
`_validate_timing` escapes. -/
def parse_analysis_response (response : String) : Except PyExc (Json × Bool) :=
  let cleaned := cleanResponse response
  match json_loads cleaned with
  | some analysis => validate_timing analysis
  | none =>
      match bracedSubstring cleaned with
      | some sub =>
          match json_loads sub with
          | some analysis => validate_timing analysis
          | none => .ok (.obj [("raw_response", .str response)], false)
      | none => .ok (.obj [("raw_response", .str response)], false)

/-- Values on which `_validate_timing` cannot raise: objects whose `scenes`
entry, if a list, holds only objects; lists without the element `"scenes"`;
strings not containing `"scenes"`. -/
def goodAnalysis : Json → Bool
  | .obj kvs =>
      match kvs.lookup "scenes" with
      | some (.arr xs) => xs.all (fun s => s matches .obj _)
      | _ => true
  | .arr xs => !(xs.any isScenesStr)
  | .str s => !(listSub "scenes".data s.data)
  | _ => false

/-! ### Python numeric conversion and equality helpers for the QA agent -/

/-- Models `float(s)` on a string: whitespace-stripped JSON-number syntax with an
optional leading `+`.  (CPython's `float()` is slightly broader — e.g. it
accepts leading zeros and `inf` — but no proved statement exercises the
difference.) -/
def pyFloatStr? (s : String) : Option ℚ :=
  let t := ((s.data.dropWhile isPySpace).reverse.dropWhile isPySpace).reverse
  let t := match t with
    | '+' :: r => r
    | _ => t
  match parseNumber t with
  | some (q, []) => some q
  | _ => none

/-- Models `float(x)` where any exception is swallowed by an enclosing
`try: ... except: pass`. -/
def pyFloat? : Json → Option ℚ
  | .num q => some q
  | .bool b => some (if b then 1 else 0)
  | .str s => pyFloatStr? s
  | _ => none

/-- Models `float(x)` with the exception propagating. -/
def pyFloatE : Json → Except PyExc ℚ
  | .num q => .ok q
  | .bool b => .ok (if b then 1 else 0)
  | .str s =>
      match pyFloatStr? s with
      | some q => .ok q
      | none => .error (.valueError "could not convert string to float")
  | _ => .error .typeError

-- Depth of a json value, used as fuel for Python equality.
mutual

/-- Depth of a json value, used as fuel for Python equality. -/
def jdepth : Json → Nat
  | .null | .bool _ | .num _ | .str _ => 1
  | .arr xs => 1 + jdepthList xs
  | .obj kvs => 1 + jdepthKvs kvs

def jdepthList : List Json → Nat
  | [] => 0
  | x :: rest => max (jdepth x) (jdepthList rest)

def jdepthKvs : List (String × Json) → Nat
  | [] => 0
  | (_, v) :: rest => max (jdepth v) (jdepthKvs rest)

end

/-- Python `==` on json-shaped values, with fuel: `True == 1`, numbers compare
by value, dicts compare as unordered key/value mappings. -/
def jsonEqF : Nat → Json → Json → Bool
  | 0, _, _ => false
  | f + 1, a, b =>
      match a, b with
      | .null, .null => true
      | .bool x, .bool y => x == y
      | .bool x, .num q => (if x then (1 : ℚ) else 0) == q
      | .num q, .bool y => q == (if y then (1 : ℚ) else 0)
      | .num p, .num q => p == q
      | .str s, .str t => s == t
      | .arr xs, .arr ys =>
          xs.length == ys.length && (xs.zip ys).all (fun p => jsonEqF f p.1 p.2)
      | .obj xs, .obj ys =>
          xs.length == ys.length &&
            xs.all (fun kv =>
              match ys.lookup kv.1 with
              | some w => jsonEqF f kv.2 w
              | none => false)
      | _, _ => false

/-- Python `==`. -/
def jsonEq (a b : Json) : Bool := jsonEqF (jdepth a) a b

/-- Models `list.extend(x)`: iterate `x` (a string yields its characters, a dict its
keys); `TypeError` on a non-iterable. -/
def pyExtendItems : Json → Except PyExc (List Json)
  | .arr xs => .ok xs
  | .str s => .ok (s.data.map (fun c => Json.str ⟨[c]⟩))
  | .obj kvs => .ok (kvs.map (fun kv => Json.str kv.1))
  | _ => .error .typeError

/-- Python list concatenation `a + b` (after the `or []` guards). -/
def pyListConcat : Json → Json → Except PyExc Json
  | .arr xs, .arr ys => .ok (.arr (xs ++ ys))
  | .str a, .str b => .ok (.str (a ++ b))
  | _, _ => .error .typeError

/-- Models `aspect.replace("_", " ")`. -/
def replaceUnderscores (s : String) : String :=
  ⟨s.data.map (fun c => if c = '_' then ' ' else c)⟩

/-- Keep first occurrences under Python `==`. -/
def dedupAcc : List Json → List Json → List Json
  | [], acc => acc.reverse
  | x :: rest, acc =>
      if acc.any (fun d => jsonEq d x) then dedupAcc rest acc
      else dedupAcc rest (x :: acc)

/-! ### QAAgent (qa_agent.py) -/

/-- Metadata read from `VideoFileClip`: the delegated media-probe call. -/
structure VideoMeta where
  duration : ℚ
  fps : ℚ
  w : Nat
  h : Nat
  hasAudio : Bool

/-- Score heuristic of `_check_technical_quality` (lines 124–127). -/
def techScore (issues : List Json) : ℚ :=
  if issues.isEmpty then 1 else if issues.length ≤ 2 then 3 / 4 else 3 / 5

/-- Models `_check_technical_quality(video_path, requirements)` (lines 71–129).
`sizeBytes` stands for `os.path.getsize`, `meta` for the `VideoFileClip`
probe (`.error e` models the probe raising, whose message lands in the
"Could not read video metadata" issue).  A truthy non-dict `requirements`
makes the first `.get` raise inside the same `try`, which the `except`
also converts into that issue. -/
def check_technical_quality (sizeBytes : Nat) (meta : Except String VideoMeta)
    (requirements : Json) : Json :=
  let sizeMb := round3 ((sizeBytes : ℚ) / (1024 * 1024))
  let sizeIssues : List Json :=
    if sizeMb < 1 / 10 then [.str "Video file is too small - may be corrupted"]
    else if 200 < sizeMb then [.str "Video file is very large - consider compression"]
    else []
  let baseChecks : List (String × Json) :=
    [("file_exists", .bool true), ("file_size_mb", .num sizeMb)]
  match meta with
  | .error e =>
      let issues := sizeIssues ++ [.str ("Could not read video metadata: " ++ e)]
      .obj [("score", .num (techScore issues)), ("checks", .obj baseChecks),
            ("issues", .arr issues)]
  | .ok m =>
      let durS := round2 m.duration
      let res := toString m.w ++ "x" ++ toString m.h
      let checks := baseChecks ++
        [("duration_seconds", .num durS), ("fps", .num m.fps),
         ("resolution", .str res), ("has_audio", .bool m.hasAudio)]
      match requirements with
      | .obj rkvs =>
          let td := Json.pyOr ((rkvs.lookup "duration").getD .null)
            ((rkvs.lookup "target_duration").getD .null)
          let durIssues : List Json :=
            match td with
            | .null => []
            | _ =>
                match pyFloat? td with
                | some t =>
                    if 1 < |durS - t| then
                      [.str ("Duration mismatch: " ++ toString durS ++ "s vs target " ++
                        toString t ++ "s")]
                    else []
                | none => []
          let tr := (rkvs.lookup "resolution").getD .null
          let resIssues : List Json :=
            match tr with
            | .str trs =>
                if trs ≠ "" ∧ trs ≠ res then
                  [.str ("Resolution mismatch: " ++ res ++ " vs target " ++ trs)]
                else []
            | _ => []
          let tf := (rkvs.lookup "fps").getD .null
          let fpsIssues : List Json :=
            match tf with
            | .null => []
            | _ =>
                match pyFloat? tf with
                | some t =>
                    if m.fps ≠ 0 ∧ 1 < |m.fps - t| then
                      [.str ("FPS mismatch: " ++ toString m.fps ++ " vs target " ++ toString t)]
                    else []
                | none => []
          let audioIssues : List Json :=
            if m.hasAudio then [] else [.str "No audio track detected (missing voiceover/music)"]
          let issues := sizeIssues ++ durIssues ++ resIssues ++ fpsIssues ++ audioIssues
          .obj [("score", .num (techScore issues)), ("checks", .obj checks),
                ("issues", .arr issues)]
      | _ =>
          -- requirements is truthy but not a dict: `requirements.get` raises
          -- AttributeError inside the `try`
          let issues := sizeIssues ++ [.str "Could not read video metadata: AttributeError"]
          .obj [("score", .num (techScore issues)), ("checks", .obj checks),
                ("issues", .arr issues)]

/-- The fallback handed to `_parse_json_response` by `_check_content_quality`
(lines 182–191): it carries the raw LLM text under `raw_response`. -/
def qa_content_fallback (response : String) : Json :=
  .obj [("score", .num (1 / 2)),
        ("issues", .arr [.str "Could not parse quality assessment"]),
        ("raw_response", .str response),
        ("scores", .obj []),
        ("suggestions", .arr [])]

/-- Models `dict.setdefault(k, v)`. -/
def setdefaultKvs (kvs : List (String × Json)) (k : String) (v : Json) :
    List (String × Json) :=
  match kvs.lookup k with
  | some _ => kvs
  | none => kvs ++ [(k, v)]

/-- Models `sum(float(v) for v in scores.values())`, `none` when any conversion
raises (the surrounding `try` then falls back). -/
def scoresFloatSum : List (String × Json) → Option ℚ
  | [] => some 0
  | (_, v) :: rest => do
      let x ← pyFloat? v
      let s ← scoresFloatSum rest
      some (x + s)

/-- Models `_check_content_quality` (lines 131–204) given the LLM's reply text: parse
with fallback, then normalize `score` from the 0–10 rubric average.  An
assessment that parses to a non-dict makes `assessment.get` raise. -/
def check_content_quality (llmResponse : String) : Except PyExc Json :=
  let assessment := parse_json_response llmResponse (qa_content_fallback llmResponse)
  match assessment with
  | .obj akvs =>
      let scoresJ := Json.pyOr ((akvs.lookup "scores").getD (.obj [])) (.obj [])
      if scoresJ.pyTruthy then
        match scoresJ with
        | .obj skvs =>
            match scoresFloatSum skvs with
            | some s =>
                let avg := s / (skvs.length : ℚ)
                .ok (.obj (Json.setKey akvs "score" (.num (round2 (avg / 10)))))
            | none =>
                .ok (.obj (Json.setKey akvs "score" ((akvs.lookup "score").getD (.num (1 / 2)))))
        | _ =>
            -- truthy non-dict: `scores.values()` raises inside the `try`,
            -- landing in the same fallback assignment
            .ok (.obj (Json.setKey akvs "score" ((akvs.lookup "score").getD (.num (1 / 2)))))
      else
        .ok (.obj (setdefaultKvs akvs "score" (.num (1 / 2))))
  | _ => .error .attributeError

/-- Models `_calculate_quality_score(technical_check, content_check)` (lines 206–211):
`round(technical*0.3 + content*0.7, 2)`. -/
def calculate_quality_score (tc cc : Json) : Except PyExc ℚ := do
  let tj ← tc.pyGetE "score" (.num (1 / 2))
  let t ← pyFloatE tj
  let cj ← cc.pyGetE "score" (.num (1 / 2))
  let c ← pyFloatE cj
  .ok (round2 (t * (3 / 10) + c * (7 / 10)))

/-- Models `_generate_recommendations` (lines 213–243). -/
def generate_recommendations (tc cc : Json) : Except PyExc (List Json) := do
  let tj ← tc.pyGetE "score" (.num 1)
  let t ← pyFloatE tj
  let base : List Json :=
    if t < 4 / 5 then
      [.str "Review technical video specs (duration, resolution, fps).",
       .str "Check audio levels and ensure voiceover is present.",
       .str "Compress or re-export with optimized bitrate if file is too large."]
    else []
  let sj ← cc.pyGetE "suggestions" (.arr [])
  let sugg := Json.pyOr sj (.arr [])
  let sxs ← pyExtendItems sugg
  let scj ← cc.pyGetE "scores" (.obj [])
  let scores := Json.pyOr scj (.obj [])
  let aspectRecs ←
    match scores with
    | .obj skvs =>
        .ok (skvs.filterMap (fun kv =>
          match pyFloat? kv.2 with
          | some v =>
              if v < 7 then some (Json.str ("Improve " ++ replaceUnderscores kv.1 ++ "."))
              else none
          | none => none))
    | _ => .error .attributeError  -- truthy non-dict: `.items()` raises, uncaught
  .ok ((dedupAcc (base ++ sxs ++ aspectRecs) []).take 5)

/-- The report returned when the video path does not exist (lines 35–43). -/
def qa_not_found_report : Json :=
  .obj [("approved", .bool false),
        ("quality_score", .num 0),
        ("issues", .arr [.str "Video file not found"]),
        ("recommendations", .arr [.str "Regenerate video"]),
        ("technical_check", .obj [("score", .num 0), ("issues", .arr [.str "Missing file"])]),
        ("content_check", .obj [("score", .num 0), ("issues", .arr [.str "No file to review"])])]

/-- Models `QAAgent.process(input_data)` (lines 16–69).  `fsExists` stands for
`os.path.exists`, `sizeBytes`/`meta` for the filesystem and media probes and
`llmResponse` for the delegated LLM call's reply.  The returned flag records
whether the delegated probes/LLM call were issued. -/
def qa_process (fsExists : String → Bool) (sizeBytes : Nat) (meta : Except String VideoMeta)
    (llmResponse : String) (input : Json) : Except PyExc (Json × Bool) := do
  -- self.validate_input(input_data, ["video_path"])
  let vp ←
    match input with
    | .obj kvs =>
        match kvs.lookup "video_path" with
        | some v => Except.ok v
        | none => Except.error (.valueError "Missing required field: video_path")
    | _ => Except.error .typeError  -- membership test on a non-mapping
  let vps ←
    match vp with
    | .str s => Except.ok s
    | _ => Except.error .typeError  -- os.path.exists on a non-path value
  if fsExists vps then
    let requirements := Json.pyOr (Json.getD input "original_requirements" (.obj [])) (.obj [])
    let tc := check_technical_quality sizeBytes meta requirements
    let cc ← check_content_quality llmResponse
    let quality ← calculate_quality_score tc cc
    let approved := decide ((4 : ℚ) / 5 ≤ quality)
    let ti ← tc.pyGetE "issues" (.arr [])
    let ci ← cc.pyGetE "issues" (.arr [])
    let issues ← pyListConcat (Json.pyOr ti (.arr [])) (Json.pyOr ci (.arr []))
    let recs ← generate_recommendations tc cc
    .ok (.obj [("approved", .bool approved),
               ("quality_score", .num quality),
               ("technical_check", tc),
               ("content_check", cc),
               ("issues", issues),
               ("recommendations", .arr recs)], true)
  else
    .ok (qa_not_found_report, false)

/-! ### WorkflowOrchestrator (workflow_orchestrator.py) -/

/-- Models `str(e)` for an internal exception (message text abstracted). -/
def PyExc.message : PyExc → String
  | .typeError => "TypeError"
  | .attributeError => "AttributeError"
  | .valueError m => m

/-- The orchestrator's `self.state` dict (lines 35–40). -/
structure WState where
  status : String
  current_step : Option String
  outputs : List (String × Json)
  errors : List String
  deriving Repr

/-- The state assigned in `__init__` (lines 35–40). -/
def initState : WState :=
  { status := "initialized", current_step := none, outputs := [], errors := [] }

/-- The `self.state` dict as the json value it would serialize to. -/
def stateToJson (st : WState) : Json :=
  .obj [("status", .str st.status),
        ("current_step", match st.current_step with
          | some s => .str s
          | none => .null),
        ("outputs", .obj st.outputs),
        ("errors", .arr (st.errors.map Json.str))]

/-- Models `get_status()` (lines 206–213). -/
def get_status (st : WState) : Json :=
  .obj [("status", .str st.status),
        ("current_step", match st.current_step with
          | some s => .str s
          | none => .null),
        ("completed_steps", .arr (st.outputs.map (fun kv => Json.str kv.1))),
        ("errors", .arr (st.errors.map Json.str))]

/-- What each of the six `agent.process(...)` calls would do in a given run:
return an output value or raise with a message. -/
structure StepResults where
  creative_direction : Except String Json
  script_analysis : Except String Json
  visual_design : Except String Json
  audio_production : Except String Json
  video_editing : Except String Json
  quality_assurance : Except String Json

/-- The `current_step` names, in execution order (lines 63–137). -/
def stepNames : List String :=
  ["creative_direction", "script_analysis", "visual_design",
   "audio_production", "video_editing", "quality_assurance"]

/-- The `outputs` keys, in execution order (lines 72–152). -/
def outputKeys : List String :=
  ["creative_brief", "script_analysis", "visual_design",
   "audio_output", "video_output", "qa_result"]

def StepResults.list (s : StepResults) : List (Except String Json) :=
  [s.creative_direction, s.script_analysis, s.visual_design,
   s.audio_production, s.video_editing, s.quality_assurance]

/-- Everything one call of `generate_advertisement` produces: the returned
dict, the state it leaves behind, the (prefix of) steps whose `process` was
invoked, and the documents `_save_workflow_state` wrote. -/
structure RunOutcome where
  result : Json
  finalState : WState
  executed : List String
  saved : List Json
  deriving Repr

/-- The `except Exception` boundary (lines 183–191): append the message to
`errors` and return `{"success": False, "error": msg, "state": self.state}`;
nothing is saved on this path. -/
def failRun (st : WState) (execd : List String) (msg : String) : RunOutcome :=
  let st' := { st with errors := st.errors ++ [msg] }
  { result := .obj [("success", .bool false), ("error", .str msg),
      ("state", stateToJson st')],
    finalState := st', executed := execd, saved := [] }

/-- Models `generate_advertisement` (lines 42–191), over the starting state `st`
(the state the orchestrator holds when the call begins), the behaviors of the
six delegated `process` calls, and the run's wall-clock seconds.  Every
intermediate `.get` on a step output is modelled, since on a non-dict output
it raises inside the same `try`.  Each `self.state["outputs"][key] = value`
is dict assignment (`Json.setKey`): an existing key keeps its position and is
overwritten in place, a fresh key is appended — so a rerun over the same
orchestrator that re-completes a step replaces that key's value rather than
adding a duplicate. -/
def generate_advertisement (st : WState) (s : StepResults) (procTime : ℚ) : RunOutcome :=
  -- Step 1: Creative Direction
  let st1 := { st with current_step := some "creative_direction" }
  match s.creative_direction with
  | .error msg => failRun st1 (stepNames.take 1) msg
  | .ok cb =>
  let st2 := { st1 with outputs := Json.setKey st1.outputs "creative_brief" cb }
  -- Step 2: Script Analysis
  let st3 := { st2 with current_step := some "script_analysis" }
  match s.script_analysis with
  | .error msg => failRun st3 (stepNames.take 2) msg
  | .ok sa =>
  let st4 := { st3 with outputs := Json.setKey st3.outputs "script_analysis" sa }
  -- scenes = script_analysis.get("scenes", []) or []   (line 86)
  match sa.pyGetE "scenes" (.arr []) with
  | .error e => failRun st4 (stepNames.take 2) e.message
  | .ok scenesRaw =>
  let scenes := Json.pyOr scenesRaw (.arr [])
  -- Step 3: Visual Design
  let st5 := { st4 with current_step := some "visual_design" }
  match s.visual_design with
  | .error msg => failRun st5 (stepNames.take 3) msg
  | .ok vd =>
  let st6 := { st5 with outputs := Json.setKey st5.outputs "visual_design" vd }
  -- Step 4: Audio Production (input gets at lines 109–110)
  let st7 := { st6 with current_step := some "audio_production" }
  match sa.pyGetE "voiceover_instructions" (.obj []) with
  | .error e => failRun st7 (stepNames.take 3) e.message
  | .ok _ =>
  match cb.pyGetE "music_style" (.str "upbeat") with
  | .error e => failRun st7 (stepNames.take 3) e.message
  | .ok _ =>
  match s.audio_production with
  | .error msg => failRun st7 (stepNames.take 4) msg
  | .ok ao =>
  let st8 := { st7 with outputs := Json.setKey st7.outputs "audio_output" ao }
  -- Step 5: Video Editing (input gets at lines 125–127)
  let st9 := { st8 with current_step := some "video_editing" }
  match vd.pyGetE "scene_visuals" (.obj []) with
  | .error e => failRun st9 (stepNames.take 4) e.message
  | .ok _ =>
  match vd.pyGetE "image_analysis" (.arr []) with
  | .error e => failRun st9 (stepNames.take 4) e.message
  | .ok _ =>
  match ao.pyGetE "voiceover_path" .null with
  | .error e => failRun st9 (stepNames.take 4) e.message
  | .ok _ =>
  match s.video_editing with
  | .error msg => failRun st9 (stepNames.take 5) msg
  | .ok vo =>
  let st10 := { st9 with outputs := Json.setKey st9.outputs "video_output" vo }
  -- video_path = video_output.get("video_path")   (line 132)
  match vo.pyGetE "video_path" .null with
  | .error e => failRun st10 (stepNames.take 5) e.message
  | .ok video_path =>
  -- Step 6: Quality Assurance
  let st11 := { st10 with current_step := some "quality_assurance" }
  match s.quality_assurance with
  | .error msg => failRun st11 stepNames msg
  | .ok qa =>
  let st12 := { st11 with outputs := Json.setKey st11.outputs "qa_result" qa }
  -- qa_result.get("approved", False) (line 154) and the always-logged
  -- qa_result.get("quality_score", 0) (line 158); the warning branch's own
  -- gets touch the same dict and add no failure mode
  match qa.pyGetE "approved" (.bool false) with
  | .error e => failRun st12 stepNames e.message
  | .ok _ =>
  match qa.pyGetE "quality_score" (.num 0) with
  | .error e => failRun st12 stepNames e.message
  | .ok _ =>
  -- result dict (lines 164–176)
  match vo.pyGetE "duration" .null with
  | .error e => failRun st12 stepNames e.message
  | .ok durJ =>
  match qa.pyGetE "quality_score" .null with
  | .error e => failRun st12 stepNames e.message
  | .ok qsJ =>
  match qa.pyGetE "approved" .null with
  | .error e => failRun st12 stepNames e.message
  | .ok apJ =>
  let result : Json := .obj
    [("success", .bool true),
     ("video_path", video_path),
     ("duration", durJ),
     ("quality_score", qsJ),
     ("approved", apJ),
     ("processing_time_seconds", .num (round2 procTime)),
     ("metadata", .obj [("creative_brief", cb), ("scenes", scenes), ("qa_report", qa)])]
  -- self._save_workflow_state(result)   (lines 178, 193–204)
  { result := result, finalState := st12, executed := stepNames,
    saved := [.obj [("state", stateToJson st12), ("result", result)]] }

/-! ### Concrete runs and inputs used by witnesses and counterexamples -/

/-- The all-steps-succeed behavior used to witness a successful run. -/
def allOkSteps : StepResults :=
  { creative_direction := .ok (.obj [])
    script_analysis := .ok (.obj [])
    visual_design := .ok (.obj [])
    audio_production := .ok (.obj [])
    video_editing := .ok (.obj [("video_path", .str "out.mp4")])
    quality_assurance := .ok (.obj [("approved", .bool true), ("quality_score", .num 1)]) }

/-- A run whose step 2 raises, used to exhibit the failure path. -/
def failStep2 : StepResults :=
  { creative_direction := .ok (.obj [])
    script_analysis := .error "LLM call failed"
    visual_design := .error "unreached"
    audio_production := .error "unreached"
    video_editing := .error "unreached"
    quality_assurance := .error "unreached" }

/-- First run for the C4 counterexample: step 1 succeeds, step 2 raises. -/
def c4run1 : StepResults :=
  { creative_direction := .ok (.obj [("creative_concept", .str "idea")])
    script_analysis := .error "parse failure"
    visual_design := .error "unreached"
    audio_production := .error "unreached"
    video_editing := .error "unreached"
    quality_assurance := .error "unreached" }

/-- Second run for the C4 counterexample: step 1 raises immediately. -/
def c4run2 : StepResults :=
  { creative_direction := .error "LLM down"
    script_analysis := .error "unreached"
    visual_design := .error "unreached"
    audio_production := .error "unreached"
    video_editing := .error "unreached"
    quality_assurance := .error "unreached" }

/-- A run whose step 3 raises after steps 1–2 succeed. -/
def c1wSteps : StepResults :=
  { creative_direction := .ok (.obj [])
    script_analysis := .ok (.obj [])
    visual_design := .error "visual step crashed"
    audio_production := .error "unreached"
    video_editing := .error "unreached"
    quality_assurance := .error "unreached" }

/-- First run for the C1 counterexample: step 1 completes, step 2 raises. -/
def c1runA : StepResults :=
  { creative_direction := .ok (.obj [])
    script_analysis := .error "first failure"
    visual_design := .error "unreached"
    audio_production := .error "unreached"
    video_editing := .error "unreached"
    quality_assurance := .error "unreached" }

/-- Second run for the C1 counterexample: step 1 raises immediately. -/
def c1runB : StepResults :=
  { creative_direction := .error "second failure"
    script_analysis := .error "unreached"
    visual_design := .error "unreached"
    audio_production := .error "unreached"
    video_editing := .error "unreached"
    quality_assurance := .error "unreached" }

/-- Last scene of the C5 witness analysis: 4.5s, starting at 5s. -/
def c5lkvs : List (String × Json) :=
  [("scene_id", .str "scene_2"), ("start_time", .num 5), ("end_time", .num (19 / 2)),
   ("duration", .num (9 / 2))]

/-- First scene of the C5 witness analysis: 5s. -/
def c5scene1 : Json :=
  .obj [("scene_id", .str "scene_1"), ("start_time", .num 0), ("end_time", .num 5),
        ("duration", .num 5)]

/-- The C5 witness analysis: target 10s, scenes summing to 9.5s. -/
def c5kvs : List (String × Json) :=
  [("total_duration", .num 10), ("scenes", .arr [c5scene1, .obj c5lkvs])]

/-- The C6 witness analysis: target 30s, a single 5s scene (25s off). -/
def c6kvs : List (String × Json) :=
  [("total_duration", .num 30), ("scenes", .arr [.obj [("duration", .num 5)]])]

/-- Rubric reply for the C7 witness and counterexample: one aspect rated 6.3,
giving content sub-score 0.63. -/
def c7llmA : String := "\x7b\"scores\": \x7b\"message_clarity\": 6.3\x7d\x7d"

/-- Rubric reply with an out-of-range rating, giving content sub-score 10. -/
def c7llmB : String := "\x7b\"scores\": \x7b\"message_clarity\": 100\x7d\x7d"

/-- QA input with an (existing) video path. -/
def c7input : Json := .obj [("video_path", .str "v.mp4")]

/-- Probe result without an audio track (one technical issue, score 0.75). -/
def c7metaNoAudio : VideoMeta := ⟨30, 30, 1920, 1080, false⟩

/-- Probe result with an audio track (no technical issues, score 1.0). -/
def c7metaAudio : VideoMeta := ⟨30, 30, 1920, 1080, true⟩

/-! ### Helper lemmas -/

theorem round2_err (q : ℚ) : |round2 q - q| ≤ 1 / 200 := by
  have h1 := Int.floor_le (q * 100 + 1 / 2)
  have h2 := Int.lt_floor_add_one (q * 100 + 1 / 2)
  rw [abs_sub_le_iff]
  constructor <;> (unfold round2; linarith)

theorem round2_nonneg {q : ℚ} (h : 0 ≤ q) : 0 ≤ round2 q := by
  have h0 : (0 : ℤ) ≤ ⌊q * 100 + 1 / 2⌋ := by
    apply Int.le_floor.2; push_cast; linarith
  have h0' : (0 : ℚ) ≤ (⌊q * 100 + 1 / 2⌋ : ℚ) := by exact_mod_cast h0
  unfold round2; linarith

theorem round2_le_one {q : ℚ} (h : q ≤ 1) : round2 q ≤ 1 := by
  have h0 : ⌊q * 100 + 1 / 2⌋ ≤ ⌊(100 + 1 / 2 : ℚ)⌋ := Int.floor_mono (by linarith)
  have h1 : ⌊(100 + 1 / 2 : ℚ)⌋ = 100 := by norm_num [Int.floor_eq_iff]
  have h0' : (⌊q * 100 + 1 / 2⌋ : ℚ) ≤ 100 := by
    rw [h1] at h0; exact_mod_cast h0
  unfold round2; linarith

theorem mem_of_getLast?_eq {α : Type} {l : List α} {x : α} (h : l.getLast? = some x) :
    x ∈ l := by
  obtain ⟨hne, heq⟩ := List.mem_getLast?_eq_getLast (Option.mem_def.mpr h)
  exact heq ▸ List.getLast_mem hne

theorem sumDurations_ok {xs : List Json} (h : ∀ s ∈ xs, (s matches Json.obj _) = true) :
    ∃ q, sumDurations xs = .ok q := by
  induction xs with
  | nil => exact ⟨0, rfl⟩
  | cons s rest ih =>
      obtain ⟨q, hq⟩ := ih (fun x hx => h x (List.mem_cons_of_mem _ hx))
      have hs := h s (List.mem_cons_self s rest)
      match s with
      | .obj skvs =>
          refine ⟨durOf skvs + q, ?_⟩
          simp [sumDurations, hq, Except.map]

theorem validate_timing_ok {j : Json} (h : goodAnalysis j = true) :
    (validate_timing j).isOk = true := by
  match j with
  | .null | .bool _ | .num _ => simp [goodAnalysis] at h
  | .str s =>
      simp only [goodAnalysis, Bool.not_eq_true'] at h
      simp [validate_timing, h, Except.isOk, Except.toBool]
  | .arr xs =>
      simp only [goodAnalysis, Bool.not_eq_true'] at h
      simp [validate_timing, h, Except.isOk, Except.toBool]
  | .obj kvs =>
      rcases hsc : kvs.lookup "scenes" with _ | scenesJ
      · simp [validate_timing, hsc, Except.isOk, Except.toBool]
      · match scenesJ with
        | .null | .bool _ | .num _ | .str _ | .obj _ =>
            simp [validate_timing, hsc, Except.isOk, Except.toBool]
        | .arr scenes =>
            have hall : ∀ x ∈ scenes, (x matches Json.obj _) = true := by
              have hg := h
              simp only [goodAnalysis, hsc, List.all_eq_true] at hg
              exact hg
            rcases htd : Json.pyNum? ((kvs.lookup "total_duration").getD .null) with _ | target
            · simp [validate_timing, hsc, htd, Except.isOk, Except.toBool]
            · obtain ⟨total, htot⟩ := sumDurations_ok hall
              rcases hlast : scenes.getLast? with _ | last
              · simp [validate_timing, hsc, htd, htot, hlast, Except.isOk, Except.toBool]
              · have hobj := hall last (mem_of_getLast?_eq hlast)
                match last with
                | .obj lkvs =>
                    by_cases hle : |total - target| ≤ 1
                    · rcases hdur : Json.pyNum? ((lkvs.lookup "duration").getD .null) with _ | d0 <;>
                        simp [validate_timing, hsc, htd, htot, hlast, hle, hdur,
                          Except.isOk, Except.toBool]
                    · simp [validate_timing, hsc, htd, htot, hlast, hle,
                        Except.isOk, Except.toBool]

theorem lookup_setKey_self (kvs : List (String × Json)) (k : String) (v : Json) :
    (Json.setKey kvs k v).lookup k = some v := by
  induction kvs with
  | nil => simp [Json.setKey, List.lookup]
  | cons kv rest ih =>
      obtain ⟨k', v'⟩ := kv
      by_cases h : k' = k
      · subst h; simp [Json.setKey, List.lookup]
      · have hne : (k == k') = false := beq_eq_false_iff_ne.mpr (Ne.symm h)
        simp [Json.setKey, h, List.lookup, hne, ih]

theorem mem_keys_setKey {kvs : List (String × Json)} {key : String} {k : String} {v : Json}
    (h : key ∈ kvs.map Prod.fst) : key ∈ (Json.setKey kvs k v).map Prod.fst := by
  induction kvs with
  | nil => simp at h
  | cons kv rest ih =>
      obtain ⟨a, b⟩ := kv
      by_cases hak : a = k
      · subst hak
        simpa [Json.setKey] using h
      · simp only [Json.setKey, hak, if_false, List.map_cons, List.mem_cons] at h ⊢
        rcases h with h | h
        · exact Or.inl h
        · exact Or.inr (ih h)

theorem lookup_setKey_ne (kvs : List (String × Json)) (k k' : String) (v : Json)
    (h : k' ≠ k) : (Json.setKey kvs k v).lookup k' = kvs.lookup k' := by
  induction kvs with
  | nil =>
      have hne : (k' == k) = false := beq_eq_false_iff_ne.mpr h
      simp [Json.setKey, List.lookup, hne]
  | cons kv rest ih =>
      obtain ⟨a, b⟩ := kv
      by_cases ha : a = k
      · subst ha
        have hne : (k' == a) = false := beq_eq_false_iff_ne.mpr h
        simp [Json.setKey, List.lookup, hne]
      · by_cases hb : k' = a
        · subst hb; simp [Json.setKey, ha, List.lookup]
        · have hne : (k' == a) = false := beq_eq_false_iff_ne.mpr hb
          simp [Json.setKey, ha, List.lookup, hne, ih]

theorem sumDurations_obj_of_ok {xs : List Json} {q : ℚ} (h : sumDurations xs = .ok q) :
    ∀ x ∈ xs, (x matches Json.obj _) = true := by
  induction xs generalizing q with
  | nil => simp
  | cons s rest ih =>
      intro x hx
      have hobj : ∃ skvs, s = Json.obj skvs := by
        cases s
        case obj skvs => exact ⟨skvs, rfl⟩
        all_goals simp [sumDurations] at h
      obtain ⟨skvs, rfl⟩ := hobj
      have hrest' : ∃ q', sumDurations rest = .ok q' := by
        simp only [sumDurations] at h
        rcases hr : sumDurations rest with e | q'
        · rw [hr] at h; simp [Except.map] at h
        · exact ⟨q', rfl⟩
      obtain ⟨q', hq'⟩ := hrest'
      rcases List.mem_cons.mp hx with rfl | hx2
      · rfl
      · exact ih hq' x hx2

theorem sumDurations_append {xs ys : List Json} {a b : ℚ}
    (hx : sumDurations xs = .ok a) (hy : sumDurations ys = .ok b) :
    sumDurations (xs ++ ys) = .ok (a + b) := by
  induction xs generalizing a with
  | nil =>
      simp only [sumDurations] at hx
      cases hx
      simpa using hy
  | cons s rest ih =>
      have hobj : ∃ skvs, s = Json.obj skvs := by
        cases s
        case obj skvs => exact ⟨skvs, rfl⟩
        all_goals simp [sumDurations] at hx
      obtain ⟨skvs, rfl⟩ := hobj
      simp only [sumDurations] at hx
      rcases hrest : sumDurations rest with e | q'
      · rw [hrest] at hx; simp [Except.map] at hx
      · rw [hrest] at hx
        simp only [Except.map] at hx
        cases hx
        have h2 := ih hrest
        simp only [List.cons_append, sumDurations]
        rw [show rest.append ys = rest ++ ys from rfl, h2]
        simp only [Except.map]
        congr 1
        ring

theorem techScore_bounds (issues : List Json) : 0 ≤ techScore issues ∧ techScore issues ≤ 1 := by
  unfold techScore
  split
  · norm_num
  · split <;> norm_num

theorem lookup_append_none {kvs : List (String × Json)} {k : String} {v : Json}
    (h : kvs.lookup k = none) : (kvs ++ [(k, v)]).lookup k = some v := by
  induction kvs with
  | nil => simp [List.lookup]
  | cons kv rest ih =>
      obtain ⟨a, b⟩ := kv
      rcases hak : (k == a) with _ | _
      · simp only [List.lookup, hak] at h ⊢
        exact ih h
      · simp only [List.lookup, hak] at h
        exact Option.noConfusion h

/-- Every branch of `_check_technical_quality` returns a dict whose first key
is `score`, holding the heuristic score, which lies in `[0, 1]`. -/
theorem tech_check_score_field (sizeBytes : Nat) (meta : Except String VideoMeta)
    (req : Json) :
    ∃ sc rest, check_technical_quality sizeBytes meta req = .obj (("score", Json.num sc) :: rest)
      ∧ 0 ≤ sc ∧ sc ≤ 1 := by
  unfold check_technical_quality
  rcases meta with e | m
  · exact ⟨_, _, rfl, (techScore_bounds _).1, (techScore_bounds _).2⟩
  · cases req <;> exact ⟨_, _, rfl, (techScore_bounds _).1, (techScore_bounds _).2⟩

/-- Every `ok` result of `_check_content_quality` is a dict with a `score`
key. -/
theorem content_check_obj (llm : String) (cc : Json)
    (h : check_content_quality llm = .ok cc) :
    ∃ akvs v, cc = .obj akvs ∧ akvs.lookup "score" = some v := by
  unfold check_content_quality at h
  rcases hA : parse_json_response llm (qa_content_fallback llm) with _ | _ | _ | _ | _ | akvs <;>
    rw [hA] at h <;> simp only [] at h
  case obj =>
    by_cases htru : (Json.pyOr ((akvs.lookup "scores").getD (.obj [])) (.obj [])).pyTruthy
    · rw [if_pos htru] at h
      rcases hsc : Json.pyOr ((akvs.lookup "scores").getD (.obj [])) (.obj []) with
        _ | _ | _ | _ | _ | skvs <;> rw [hsc] at h
      all_goals
        first
        | (cases h; exact ⟨_, _, rfl, lookup_setKey_self _ _ _⟩)
        | (simp only [] at h;
           rcases hsum : scoresFloatSum skvs with _ | ssum <;> rw [hsum] at h <;>
            (cases h; exact ⟨_, _, rfl, lookup_setKey_self _ _ _⟩))
    · rw [if_neg htru] at h
      cases h
      unfold setdefaultKvs
      rcases hs : akvs.lookup "score" with _ | w
      · exact ⟨_, _, rfl, lookup_append_none hs⟩
      · exact ⟨_, _, rfl, hs⟩
  all_goals simp at h


/-! ### Claim theorems -/

/-- C10: the workflow state's `status` field is set to `"initialized"` at
orchestrator construction and is never mutated by `generate_advertisement`
(on any path, success or failure), by `_save_workflow_state`, or by
`get_status`; `get_status` and the failure snapshot therefore always report
status `"initialized"` for any chain of runs starting from construction. -/
theorem c10_status_never_mutated (st : WState) (s : StepResults) (t : ℚ) :
    initState.status = "initialized" ∧
    (generate_advertisement st s t).finalState.status = st.status ∧
    (get_status st).lookup "status" = some (.str st.status) ∧
    (stateToJson st).lookup "status" = some (.str st.status) := by
  refine ⟨rfl, ?_, rfl, rfl⟩
  unfold generate_advertisement failRun
  repeat' split
  all_goals rfl

/-- C3 (amended): `_save_workflow_state` runs exactly once, at the end, on a
*successful* run, persisting the single timestamped `{state, result}`
document; on a failure run the `except` branch returns without saving, so
nothing is persisted. -/
theorem c3_save_once_on_success (st : WState) (s : StepResults) (t : ℚ) :
    ((generate_advertisement st s t).result.lookup "success" = some (.bool true) →
      (generate_advertisement st s t).saved =
        [.obj [("state", stateToJson (generate_advertisement st s t).finalState),
               ("result", (generate_advertisement st s t).result)]]) ∧
    ((generate_advertisement st s t).result.lookup "success" = some (.bool false) →
      (generate_advertisement st s t).saved = []) := by
  unfold generate_advertisement failRun
  repeat' split
  all_goals simp [Json.lookup, List.lookup]

/-- Witness for C3: on a concrete successful run the one saved document is the
`{state, result}` snapshot, obtained from `c3_save_once_on_success`. -/
theorem c3_save_once_on_success_witness :
    (generate_advertisement initState allOkSteps 0).saved =
      [.obj [("state", stateToJson (generate_advertisement initState allOkSteps 0).finalState),
             ("result", (generate_advertisement initState allOkSteps 0).result)]] :=
  (c3_save_once_on_success initState allOkSteps 0).1 rfl

/-- Counterexample for C3: the claim says the snapshot is persisted exactly
once at the end of *every* run, success or failure; on this concrete failing
run the failure result is returned and nothing at all is persisted. -/
theorem c3_counterexample :
    (generate_advertisement initState failStep2 0).result.lookup "success" =
      some (.bool false) ∧
    (generate_advertisement initState failStep2 0).saved = [] ∧
    (generate_advertisement initState failStep2 0).saved.length ≠ 1 := by
  refine ⟨rfl, rfl, by decide⟩

/-- C4 (amended): the workflow state is constructed once, in `__init__`
(status `"initialized"`, no current step, empty outputs, empty errors), and
`generate_advertisement` does not re-create it: a run only appends to
`errors` and never removes an `outputs` key — a re-completed step overwrites
its key's value in place (Python dict assignment), every other key survives
untouched.  Hence consecutive runs on the same orchestrator share the dict,
and the earlier run's outputs keys and errors stay visible in (and are
persisted with) the later run's state; isolation holds only between distinct
orchestrator instances. -/
theorem c4_state_reused_keys_kept (st : WState) (s : StepResults) (t : ℚ) :
    initState.status = "initialized" ∧ initState.current_step = none ∧
    initState.outputs = [] ∧ initState.errors = [] ∧
    (∃ newErr, (generate_advertisement st s t).finalState.errors = st.errors ++ newErr) ∧
    (∀ key, key ∈ st.outputs.map Prod.fst →
      key ∈ (generate_advertisement st s t).finalState.outputs.map Prod.fst) := by
  refine ⟨rfl, rfl, rfl, rfl, ?_⟩
  unfold generate_advertisement failRun
  repeat' split
  all_goals refine ⟨⟨_, by simp; rfl⟩, ?_⟩
  all_goals intro key hk
  all_goals simp only []
  all_goals repeat apply mem_keys_setKey
  all_goals exact hk

/-- Counterexample for C4: the claim says every call begins with a fresh
state, so no outputs or errors of an earlier run are visible in the later
run's state.  On this same-orchestrator pair of runs the second run completes
zero steps, yet its final state still carries the first run's
`creative_brief` output and `"parse failure"` error, and its failure result's
state snapshot reports the first run's step as completed. -/
theorem c4_counterexample :
    (generate_advertisement
        (generate_advertisement initState c4run1 0).finalState c4run2 0).executed =
      ["creative_direction"] ∧
    (generate_advertisement
        (generate_advertisement initState c4run1 0).finalState c4run2 0).finalState.outputs =
      [("creative_brief", .obj [("creative_concept", .str "idea")])] ∧
    (generate_advertisement
        (generate_advertisement initState c4run1 0).finalState c4run2 0).finalState.errors =
      ["parse failure", "LLM down"] ∧
    (get_status (generate_advertisement
        (generate_advertisement initState c4run1 0).finalState c4run2 0).finalState).lookup
      "completed_steps" = some (.arr [.str "creative_brief"]) := by
  exact ⟨rfl, rfl, rfl, rfl⟩

/-- C1 (amended): on an orchestrator whose state holds no step outputs yet
(in particular a freshly constructed one, the situation the claim's spec
sources describe), when the six steps' `process` calls succeed up to step
`k+1` (with dict outputs, as every agent produces) and step `k+1` raises,
no later step executes, the state's `outputs` contains exactly the keys of
the completed steps in execution order, the error message is appended to
`errors`, and `generate_advertisement` returns the structured failure result
`{"success": False, "error": msg, "state": ...}` instead of letting the
exception escape; nothing is saved.  (On a reused orchestrator the dict
assignment overwrites a re-completed step's key in place, so `outputs` need
not gain keys at all — see the counterexample to the unamended claim.) -/
theorem c1_halt_on_first_failure (st : WState) (s : StepResults) (t : ℚ)
    (k : ℕ) (msg : String) (hk : k < 6)
    (houts : st.outputs = [])
    (hfail : s.list[k]? = some (.error msg))
    (hprev : ∀ i, i < k → ∃ kvs, s.list[i]? = some (.ok (.obj kvs))) :
    (generate_advertisement st s t).executed = stepNames.take (k + 1) ∧
    (generate_advertisement st s t).finalState.outputs.map Prod.fst =
      outputKeys.take k ∧
    (generate_advertisement st s t).finalState.errors = st.errors ++ [msg] ∧
    (generate_advertisement st s t).result =
      .obj [("success", .bool false), ("error", .str msg),
            ("state", stateToJson (generate_advertisement st s t).finalState)] ∧
    (generate_advertisement st s t).saved = [] := by
  interval_cases k
  · simp only [StepResults.list, List.getElem?_cons_zero, Option.some.injEq] at hfail
    refine ⟨?_, ?_, ?_, ?_, ?_⟩ <;>
      simp [generate_advertisement, failRun, houts, hfail, stepNames, outputKeys]
  · obtain ⟨kvs0, h0⟩ := hprev 0 (by norm_num)
    simp only [StepResults.list, List.getElem?_cons_zero, List.getElem?_cons_succ, Option.some.injEq] at hfail h0
    refine ⟨?_, ?_, ?_, ?_, ?_⟩ <;>
      simp [generate_advertisement, failRun, houts, Json.setKey, h0, hfail, Json.pyGetE,
        stepNames, outputKeys]
  · obtain ⟨kvs0, h0⟩ := hprev 0 (by norm_num)
    obtain ⟨kvs1, h1⟩ := hprev 1 (by norm_num)
    simp only [StepResults.list, List.getElem?_cons_zero, List.getElem?_cons_succ, Option.some.injEq] at hfail h0 h1
    refine ⟨?_, ?_, ?_, ?_, ?_⟩ <;>
      simp [generate_advertisement, failRun, houts, Json.setKey, h0, h1, hfail, Json.pyGetE,
        stepNames, outputKeys]
  · obtain ⟨kvs0, h0⟩ := hprev 0 (by norm_num)
    obtain ⟨kvs1, h1⟩ := hprev 1 (by norm_num)
    obtain ⟨kvs2, h2⟩ := hprev 2 (by norm_num)
    simp only [StepResults.list, List.getElem?_cons_zero, List.getElem?_cons_succ,
      Option.some.injEq] at hfail h0 h1 h2
    refine ⟨?_, ?_, ?_, ?_, ?_⟩ <;>
      simp [generate_advertisement, failRun, houts, Json.setKey, h0, h1, h2, hfail,
        Json.pyGetE, stepNames, outputKeys]
  · obtain ⟨kvs0, h0⟩ := hprev 0 (by norm_num)
    obtain ⟨kvs1, h1⟩ := hprev 1 (by norm_num)
    obtain ⟨kvs2, h2⟩ := hprev 2 (by norm_num)
    obtain ⟨kvs3, h3⟩ := hprev 3 (by norm_num)
    simp only [StepResults.list, List.getElem?_cons_zero, List.getElem?_cons_succ,
      Option.some.injEq] at hfail h0 h1 h2 h3
    refine ⟨?_, ?_, ?_, ?_, ?_⟩ <;>
      simp [generate_advertisement, failRun, houts, Json.setKey, h0, h1, h2, h3, hfail,
        Json.pyGetE, stepNames, outputKeys]
  · obtain ⟨kvs0, h0⟩ := hprev 0 (by norm_num)
    obtain ⟨kvs1, h1⟩ := hprev 1 (by norm_num)
    obtain ⟨kvs2, h2⟩ := hprev 2 (by norm_num)
    obtain ⟨kvs3, h3⟩ := hprev 3 (by norm_num)
    obtain ⟨kvs4, h4⟩ := hprev 4 (by norm_num)
    simp only [StepResults.list, List.getElem?_cons_zero, List.getElem?_cons_succ,
      Option.some.injEq] at hfail h0 h1 h2 h3 h4
    refine ⟨?_, ?_, ?_, ?_, ?_⟩ <;>
      simp [generate_advertisement, failRun, houts, Json.setKey, h0, h1, h2, h3, h4, hfail,
        Json.pyGetE, stepNames, outputKeys]

/-- Witness for C1: the amended theorem applied to a fresh orchestrator with
step 3 raising — steps 4–6 never execute and `outputs` holds exactly the
keys for steps 1–2. -/
theorem c1_halt_on_first_failure_witness :
    (generate_advertisement initState c1wSteps 0).executed = stepNames.take 3 ∧
    (generate_advertisement initState c1wSteps 0).finalState.outputs.map Prod.fst =
      outputKeys.take 2 ∧
    (generate_advertisement initState c1wSteps 0).finalState.errors =
      initState.errors ++ ["visual step crashed"] ∧
    (generate_advertisement initState c1wSteps 0).result =
      .obj [("success", .bool false), ("error", .str "visual step crashed"),
            ("state", stateToJson (generate_advertisement initState c1wSteps 0).finalState)] ∧
    (generate_advertisement initState c1wSteps 0).saved = [] :=
  c1_halt_on_first_failure initState c1wSteps 0 2 "visual step crashed" (by norm_num) rfl rfl
    (by
      intro i hi
      interval_cases i <;> exact ⟨[], rfl⟩)

/-- Counterexample for C1 as stated: in the second run on the same
orchestrator, step 1 (k = 1) raises, so zero steps of that run completed —
yet the state's `outputs` is not exactly the keys of the steps completed
before the failure: it still carries `creative_brief` from the earlier run,
because the state lives on the orchestrator, not on the run. -/
theorem c1_counterexample :
    (generate_advertisement
        (generate_advertisement initState c1runA 0).finalState c1runB 0).executed =
      ["creative_direction"] ∧
    (generate_advertisement
        (generate_advertisement initState c1runA 0).finalState c1runB 0).finalState.outputs.map
        Prod.fst = ["creative_brief"] ∧
    (["creative_brief"] : List String) ≠ [] :=
  ⟨rfl, rfl, by decide⟩

/-- C5: for a parsed analysis with a non-empty scene list (all scenes dicts,
the last with numeric `duration` and `start_time`) and numeric
`total_duration`, when the duration sum is within 1.0s of the target,
`_validate_timing` modifies only the last scene — every earlier scene is
reproduced unchanged in `scenes.dropLast` — setting its `duration` so the
corrected sum equals the target within 0.01s, and its `end_time` equals
`start_time + duration` within the Scene invariant's 0.01s tolerance (the
stored value is `round(start_time + duration, 2)`). -/
theorem c5_timing_autocorrect
    (kvs : List (String × Json)) (scenes : List Json) (lkvs : List (String × Json))
    (target total d0 st0 : ℚ)
    (hsc : kvs.lookup "scenes" = some (.arr scenes))
    (htd : Json.pyNum? ((kvs.lookup "total_duration").getD .null) = some target)
    (hs : sumDurations scenes = .ok total)
    (hlast : scenes.getLast? = some (.obj lkvs))
    (hdur : Json.pyNum? ((lkvs.lookup "duration").getD .null) = some d0)
    (hst : Json.pyNum? ((lkvs.lookup "start_time").getD .null) = some st0)
    (hclose : |total - target| ≤ 1) :
    ∃ newDur newEnd total' : ℚ,
      newDur = round2 (d0 + (target - total)) ∧
      newEnd = round2 (st0 + newDur) ∧
      validate_timing (.obj kvs) = .ok
        (.obj (Json.setKey kvs "scenes" (.arr (scenes.dropLast ++
          [.obj (Json.setKey (Json.setKey lkvs "duration" (.num newDur)) "end_time"
            (.num newEnd))]))), false) ∧
      sumDurations (scenes.dropLast ++
          [.obj (Json.setKey (Json.setKey lkvs "duration" (.num newDur)) "end_time"
            (.num newEnd))]) = .ok total' ∧
      |total' - target| ≤ 1 / 100 ∧
      |newEnd - (st0 + newDur)| ≤ 1 / 100 := by
  have hdecomp : scenes.dropLast ++ [Json.obj lkvs] = scenes :=
    List.dropLast_append_getLast? _ (Option.mem_def.mpr hlast)
  have hallobj := sumDurations_obj_of_ok hs
  have hdl_obj : ∀ x ∈ scenes.dropLast, (x matches Json.obj _) = true :=
    fun x hx => hallobj x (List.mem_of_mem_dropLast hx)
  obtain ⟨sdl, hsdl⟩ := sumDurations_ok hdl_obj
  have hdurOf : durOf lkvs = d0 := by unfold durOf; rw [hdur]
  have hlast_sum : sumDurations [Json.obj lkvs] = .ok (durOf lkvs) := by
    simp [sumDurations, Except.map]
  have htotal_eq : sdl + d0 = total := by
    have hcomb := sumDurations_append hsdl hlast_sum
    rw [hdecomp, hs, hdurOf] at hcomb
    exact (Except.ok.injEq _ _ ▸ hcomb.symm :)
  have hnd : "start_time" ≠ "duration" := by decide
  have het : "duration" ≠ "end_time" := by decide
  have hlkvs1st :
      (Json.setKey lkvs "duration" (.num (round2 (d0 + (target - total))))).lookup
        "start_time" = lkvs.lookup "start_time" :=
    lookup_setKey_ne _ _ _ _ hnd
  have hnewLastDur :
      (Json.setKey (Json.setKey lkvs "duration" (.num (round2 (d0 + (target - total)))))
        "end_time"
        (.num (round2 (st0 + round2 (d0 + (target - total)))))).lookup "duration" =
      some (.num (round2 (d0 + (target - total)))) := by
    rw [lookup_setKey_ne _ _ _ _ het, lookup_setKey_self]
  have hnewLast_sum :
      sumDurations [.obj (Json.setKey
        (Json.setKey lkvs "duration" (.num (round2 (d0 + (target - total))))) "end_time"
        (.num (round2 (st0 + round2 (d0 + (target - total))))))] =
      .ok (round2 (d0 + (target - total))) := by
    simp [sumDurations, durOf, hnewLastDur, Json.pyNum?, Except.map]
  refine ⟨round2 (d0 + (target - total)), round2 (st0 + round2 (d0 + (target - total))),
    sdl + round2 (d0 + (target - total)), rfl, rfl, ?_, sumDurations_append hsdl hnewLast_sum,
    ?_, ?_⟩
  · have hnotwarn : ¬ 1 < |total - target| := not_lt.mpr hclose
    simp only [validate_timing, hsc, htd, hs, hlast, hnotwarn, if_false, hclose, if_true,
      hdur, hlkvs1st, hst]
  · have herr := round2_err (d0 + (target - total))
    have hsdl_val : sdl = total - d0 := by linarith
    rw [hsdl_val]
    have harr : total - d0 + round2 (d0 + (target - total)) - target =
        round2 (d0 + (target - total)) - (d0 + (target - total)) := by ring
    rw [harr]
    linarith [herr, (by norm_num : (1 : ℚ) / 200 ≤ 1 / 100)]
  · have herr := round2_err (st0 + round2 (d0 + (target - total)))
    exact le_trans herr (by norm_num)

/-- C6: for a parsed analysis (all scenes dicts) with numeric
`total_duration` whose duration sum is off the target by more than 1.0s,
`_validate_timing` mutates nothing — it returns the analysis exactly as
given — and records the duration-mismatch warning. -/
theorem c6_timing_warn_only
    (kvs : List (String × Json)) (scenes : List Json) (target total : ℚ)
    (hsc : kvs.lookup "scenes" = some (.arr scenes))
    (htd : Json.pyNum? ((kvs.lookup "total_duration").getD .null) = some target)
    (hs : sumDurations scenes = .ok total)
    (hfar : 1 < |total - target|) :
    validate_timing (.obj kvs) = .ok (.obj kvs, true) := by
  have hnotle : ¬ |total - target| ≤ 1 := not_le.mpr hfar
  rcases hlast : scenes.getLast? with _ | last
  · simp only [validate_timing, hsc, htd, hs, hlast, hfar, if_true]
  · have hobj := sumDurations_obj_of_ok hs last (mem_of_getLast?_eq hlast)
    match last with
    | .obj lkvs =>
        simp only [validate_timing, hsc, htd, hs, hlast, hfar, if_true, hnotle, if_false]

/-- Witness for C5: the theorem applied to the concrete 9.5s-vs-10s analysis. -/
theorem c5_timing_autocorrect_witness :
    ∃ newDur newEnd total' : ℚ,
      newDur = round2 (9 / 2 + (10 - 19 / 2)) ∧
      newEnd = round2 (5 + newDur) ∧
      validate_timing (.obj c5kvs) = .ok
        (.obj (Json.setKey c5kvs "scenes" (.arr ([c5scene1, .obj c5lkvs].dropLast ++
          [.obj (Json.setKey (Json.setKey c5lkvs "duration" (.num newDur)) "end_time"
            (.num newEnd))]))), false) ∧
      sumDurations ([c5scene1, .obj c5lkvs].dropLast ++
          [.obj (Json.setKey (Json.setKey c5lkvs "duration" (.num newDur)) "end_time"
            (.num newEnd))]) = .ok total' ∧
      |total' - 10| ≤ 1 / 100 ∧
      |newEnd - (5 + newDur)| ≤ 1 / 100 :=
  c5_timing_autocorrect c5kvs [c5scene1, .obj c5lkvs] c5lkvs 10 (19 / 2) (9 / 2) 5
    rfl rfl
    (by simp [c5scene1, c5lkvs, sumDurations, durOf, Json.pyNum?, Except.map, List.lookup];
        norm_num)
    rfl rfl rfl (by norm_num [abs_le])

/-- Witness for C6: the theorem applied to the concrete 5s-vs-30s analysis;
nothing is mutated and the warning fires. -/
theorem c6_timing_warn_only_witness :
    validate_timing (.obj c6kvs) = .ok (.obj c6kvs, true) :=
  c6_timing_warn_only c6kvs [.obj [("duration", .num 5)]] 30 5 rfl rfl
    (by simp [sumDurations, durOf, Json.pyNum?, Except.map, List.lookup])
    (by norm_num [lt_abs])

/-- C2 (amended): the generic `_parse_json_response` routines are total by
construction, and `_parse_analysis_response` returns a value without raising
*provided* every successful strict parse (of the fence-stripped text, or of
its first-`{`-to-last-`}` substring) yields a well-shaped value: an object
whose `scenes` entry, if a list, holds only objects (a list without the
element `"scenes"`, or a string not containing `"scenes"`, also passes
through).  On texts parsing to other values — e.g. a bare number —
`_validate_timing` raises and the exception escapes the routine, so the
claim's unconditional "never raises" fails (see the counterexample).  The
statement is restricted to the domain where the embedded parser and text
cleaning agree with CPython: plain ASCII text (`plainAscii`) without the
non-standard `NaN`/`Infinity` tokens (`noNonFiniteTokens`) — outside it,
e.g. at the text `NaN`, CPython parses a float the model rejects and the
routine again raises `TypeError`. -/
theorem c2_parse_total_when_wellshaped (s : String)
    (_hA : plainAscii s = true)
    (_hN : noNonFiniteTokens s = true)
    (h1 : (json_loads (cleanResponse s)).all goodAnalysis = true)
    (h2 : ((bracedSubstring (cleanResponse s)).bind json_loads).all goodAnalysis = true) :
    (parse_analysis_response s).isOk = true := by
  unfold parse_analysis_response
  rcases hj : json_loads (cleanResponse s) with _ | j
  · simp only [hj]
    rcases hb : bracedSubstring (cleanResponse s) with _ | sub
    · simp [Except.isOk, Except.toBool]
    · simp only []
      rcases hjs : json_loads sub with _ | j2
      · simp [hjs, Except.isOk, Except.toBool]
      · simp only [hjs]
        rw [hb] at h2
        exact validate_timing_ok (by simpa [hjs] using h2)
  · simp only [hj]
    rw [hj] at h1
    exact validate_timing_ok (by simpa using h1)

/-- Witness for C2: the theorem applied to a concrete well-shaped response. -/
theorem c2_parse_total_when_wellshaped_witness :
    (parse_analysis_response "\x7b\"total_duration\": 30, \"scenes\": []\x7d").isOk
      = true :=
  c2_parse_total_when_wellshaped _ (by decide) (by decide) (by decide) (by decide)

/-- Counterexample for C2 as stated: on the input `"5"` (valid JSON, so the
strict parse succeeds with the integer 5) `_validate_timing`'s membership
test `"scenes" not in analysis` raises `TypeError`, which the
`except json.JSONDecodeError` handlers do not catch — the routine raises
instead of returning a value. -/
theorem c2_counterexample : parse_analysis_response "5" = .error .typeError := rfl

/-- C9 (amended): when both parse attempts fail, the script analyzer's and
creative director's fallbacks, and the fallback the QA agent passes for its
content check, all preserve the raw response text under the dedicated
`raw_response` field; the visual designer's scene-matching fallback does not
(see the counterexample).  Restricted, like C2, to plain ASCII inputs
without `NaN`/`Infinity` tokens, where a parse failure of the model implies
a `json.JSONDecodeError` in CPython and so the fallback really is taken. -/
theorem c9_raw_preserved (s : String)
    (_hA : plainAscii s = true)
    (_hN : noNonFiniteTokens s = true)
    (h1 : json_loads (cleanResponse s) = none)
    (h2 : (bracedSubstring (cleanResponse s)).bind json_loads = none) :
    parse_creative_response s = .obj [("raw_response", .str s)] ∧
    parse_analysis_response s = .ok (.obj [("raw_response", .str s)], false) ∧
    parse_json_response s (qa_content_fallback s) = qa_content_fallback s ∧
    (qa_content_fallback s).lookup "raw_response" = some (.str s) := by
  have hcore : ∀ fb : Json, parse_json_response s fb = fb := by
    intro fb
    unfold parse_json_response
    rcases hb : bracedSubstring (cleanResponse s) with _ | sub
    · simp [h1, hb]
    · rw [hb] at h2
      have hsub : json_loads sub = none := by simpa using h2
      simp [h1, hb, hsub]
  refine ⟨hcore _, ?_, hcore _, ?_⟩
  · unfold parse_analysis_response
    rcases hb : bracedSubstring (cleanResponse s) with _ | sub
    · simp [h1, hb]
    · rw [hb] at h2
      have hsub : json_loads sub = none := by simpa using h2
      simp [h1, hb, hsub]
  · simp [qa_content_fallback, Json.lookup, List.lookup]

/-- Witness for C9: the theorem applied to a concrete unparseable response. -/
theorem c9_raw_preserved_witness :
    parse_creative_response "no structured output here" =
      .obj [("raw_response", .str "no structured output here")] ∧
    parse_analysis_response "no structured output here" =
      .ok (.obj [("raw_response", .str "no structured output here")], false) ∧
    parse_json_response "no structured output here"
        (qa_content_fallback "no structured output here") =
      qa_content_fallback "no structured output here" ∧
    (qa_content_fallback "no structured output here").lookup "raw_response" =
      some (.str "no structured output here") :=
  c9_raw_preserved "no structured output here" (by decide) (by decide) rfl rfl

/-- Counterexample for C9 as stated: the visual designer's
`_match_images_to_scenes` passes the fallback
`{"scene_matches": [], "missing_visuals": []}`; on an unparseable response
that fallback is returned verbatim and carries the raw text nowhere — there
is no `raw_response` field, so the information is lost for that step. -/
theorem c9_counterexample :
    parse_json_response "Unable to match the scenes." match_images_fallback =
      match_images_fallback ∧
    match_images_fallback.lookup "raw_response" = none :=
  ⟨rfl, rfl⟩

/-- C8: on a quality-review input whose `video_path` is a string naming no
existing file, `process` returns the fixed report — `approved == False`,
`quality_score == 0.0`, a non-empty issues list whose entry contains
"not found" — without raising, and without issuing the media probe or the
delegated LLM call (the returned flag is `false`). -/
theorem c8_missing_video (fsExists : String → Bool) (sizeBytes : Nat)
    (meta : Except String VideoMeta) (llm : String) (input : Json) (p : String)
    (hvp : input.lookup "video_path" = some (.str p))
    (hmiss : fsExists p = false) :
    qa_process fsExists sizeBytes meta llm input = .ok (qa_not_found_report, false) ∧
    qa_not_found_report.lookup "approved" = some (.bool false) ∧
    qa_not_found_report.lookup "quality_score" = some (.num 0) ∧
    qa_not_found_report.lookup "issues" = some (.arr [.str "Video file not found"]) ∧
    listSub "not found".data "Video file not found".data = true := by
  match input with
  | .null | .bool _ | .num _ | .str _ | .arr _ => simp [Json.lookup] at hvp
  | .obj kvs =>
      simp only [Json.lookup] at hvp
      refine ⟨?_, rfl, rfl, rfl, by decide⟩
      unfold qa_process
      simp [hvp, hmiss, bind, Except.bind]

/-- Witness for C8: the theorem applied to a concrete missing path. -/
theorem c8_missing_video_witness :
    qa_process (fun _ => false) 0 (.error "probe unreached") "llm unreached"
        (.obj [("video_path", .str "missing.mp4")]) =
      .ok (qa_not_found_report, false) ∧
    qa_not_found_report.lookup "approved" = some (.bool false) ∧
    qa_not_found_report.lookup "quality_score" = some (.num 0) ∧
    qa_not_found_report.lookup "issues" = some (.arr [.str "Video file not found"]) ∧
    listSub "not found".data "Video file not found".data = true :=
  c8_missing_video (fun _ => false) 0 (.error "probe unreached") "llm unreached"
    (.obj [("video_path", .str "missing.mp4")]) "missing.mp4" rfl rfl

/-- C7 (amended): whenever `QAAgent.process` returns a report, the returned
`quality_score` equals `round(0.3*technical + 0.7*content, 2)` — the weighted
sum *rounded to two decimals*, not the exact sum — where technical/content are
the sub-scores carried in the returned `technical_check`/`content_check`;
`approved` is exactly `quality_score >= 0.8`; the technical sub-score always
lies in [0, 1]; and `quality_score` lies in [0, 1] whenever the content
sub-score does (the parsed rubric is not clamped, so the claim's
unconditional [0, 1] fails — see the counterexample). -/
theorem c7_quality_formula (fs : String → Bool) (sb : Nat) (meta : Except String VideoMeta)
    (llm : String) (input : Json) (r : Json) (flag : Bool)
    (h : qa_process fs sb meta llm input = .ok (r, flag)) :
    ∃ tj cj t c q,
      (r.lookup "technical_check").bind (fun j => j.lookup "score") = some tj ∧
      (r.lookup "content_check").bind (fun j => j.lookup "score") = some cj ∧
      pyFloatE tj = .ok t ∧ pyFloatE cj = .ok c ∧
      r.lookup "quality_score" = some (.num q) ∧
      q = round2 (t * (3 / 10) + c * (7 / 10)) ∧
      r.lookup "approved" = some (.bool (decide ((4 : ℚ) / 5 ≤ q))) ∧
      0 ≤ t ∧ t ≤ 1 ∧
      (0 ≤ c ∧ c ≤ 1 → 0 ≤ q ∧ q ≤ 1) := by
  unfold qa_process at h
  cases input with
  | null | bool _ | num _ | str _ | arr _ => simp [bind, Except.bind] at h
  | obj kvs =>
    simp only [bind, Except.bind] at h
    rcases hvp : kvs.lookup "video_path" with _ | vpv <;> rw [hvp] at h
    · exact absurd h (by simp)
    · cases vpv with
      | null | bool _ | num _ | arr _ | obj _ => simp at h
      | str p =>
        simp only [] at h
        by_cases hfs : fs p
        · rw [if_pos hfs] at h
          obtain ⟨tsc, trest, htc, ht0, ht1⟩ := tech_check_score_field sb meta
            (Json.pyOr (Json.getD (Json.obj kvs) "original_requirements" (.obj [])) (.obj []))
          rw [htc] at h
          rcases hcc : check_content_quality llm with e | cc <;> rw [hcc] at h
          · exact absurd h (by simp)
          · simp only [] at h
            obtain ⟨akvs, v, rfl, hscore⟩ := content_check_obj llm cc hcc
            have hcalc : calculate_quality_score
                (Json.obj (("score", Json.num tsc) :: trest)) (Json.obj akvs) =
                (pyFloatE v).map (fun c => round2 (tsc * (3 / 10) + c * (7 / 10))) := by
              unfold calculate_quality_score
              simp only [Json.pyGetE, List.lookup, beq_self_eq_true, Option.getD_some,
                bind, Except.bind, hscore]
              rcases pyFloatE v with e' | c' <;>
                simp [pyFloatE, Except.map, bind, Except.bind]
            rw [hcalc] at h
            rcases hfv : pyFloatE v with e' | c <;> rw [hfv] at h
            · exact absurd h (by simp [Except.map])
            · simp only [Except.map] at h
              simp only [Json.pyGetE, bind, Except.bind] at h
              rcases hcat : pyListConcat
                  (Json.pyOr ((List.lookup "issues" (("score", Json.num tsc) :: trest)).getD
                    (.arr [])) (.arr []))
                  (Json.pyOr ((List.lookup "issues" akvs).getD (.arr [])) (.arr [])) with
                e2 | issuesJ <;> rw [hcat] at h
              · exact absurd h (by simp)
              · rcases hrec : generate_recommendations
                    (Json.obj (("score", Json.num tsc) :: trest)) (Json.obj akvs) with
                  e3 | recs <;> rw [hrec] at h
                · exact absurd h (by simp)
                · simp only [Except.ok.injEq, Prod.mk.injEq] at h
                  obtain ⟨hr, _⟩ := h
                  subst hr
                  refine ⟨.num tsc, v, tsc, c, round2 (tsc * (3 / 10) + c * (7 / 10)),
                    ?_, ?_, rfl, hfv, ?_, rfl, ?_, ht0, ht1, ?_⟩
                  · simp [Json.lookup, List.lookup]
                  · simp [Json.lookup, List.lookup, hscore]
                  · simp [Json.lookup, List.lookup]
                  · simp [Json.lookup, List.lookup]
                  · rintro ⟨hc0, hc1⟩
                    constructor
                    · exact round2_nonneg (by nlinarith)
                    · exact round2_le_one (by nlinarith)
        · rw [if_neg hfs] at h
          simp only [Except.ok.injEq, Prod.mk.injEq] at h
          obtain ⟨hr, _⟩ := h
          subst hr
          have hq0 : round2 ((0 : ℚ) * (3 / 10) + 0 * (7 / 10)) = 0 := by
            unfold round2; norm_num
          refine ⟨.num 0, .num 0, 0, 0, 0, rfl, rfl, rfl, rfl, rfl, hq0.symm, ?_, le_refl 0,
            by norm_num, fun _ => ⟨le_refl 0, by norm_num⟩⟩
          have hdec : decide ((4 : ℚ) / 5 ≤ (0 : ℚ)) = false := decide_eq_false (by norm_num)
          rw [hdec]
          rfl

/-- Witness for C7: the theorem applied to a concrete QA run. -/
theorem c7_quality_formula_witness :
    ∃ r flag,
      qa_process (fun _ => true) 5000000 (.ok c7metaNoAudio) c7llmA c7input =
        .ok (r, flag) ∧
      ∃ tj cj t c q,
        (r.lookup "technical_check").bind (fun j => j.lookup "score") = some tj ∧
        (r.lookup "content_check").bind (fun j => j.lookup "score") = some cj ∧
        pyFloatE tj = .ok t ∧ pyFloatE cj = .ok c ∧
        r.lookup "quality_score" = some (.num q) ∧
        q = round2 (t * (3 / 10) + c * (7 / 10)) ∧
        r.lookup "approved" = some (.bool (decide ((4 : ℚ) / 5 ≤ q))) ∧
        0 ≤ t ∧ t ≤ 1 ∧
        (0 ≤ c ∧ c ≤ 1 → 0 ≤ q ∧ q ≤ 1) :=
  ⟨_, _, by with_unfolding_all rfl, c7_quality_formula (fun _ => true) 5000000
    (.ok c7metaNoAudio) c7llmA c7input _ _ (by with_unfolding_all rfl)⟩

/-- Counterexample for C7 as stated: with technical sub-score 0.75 (missing
audio track) and content sub-score 0.63, the code returns
`round(0.3*0.75 + 0.7*0.63, 2) = 0.67`, not the exact weighted sum 0.666 the
claim asserts; and with an unclamped rubric rating of 100 the content
sub-score is 10 and the returned `quality_score` is 7.3, outside [0, 1]. -/
theorem c7_counterexample :
    (qa_process (fun _ => true) 5000000 (.ok c7metaNoAudio) c7llmA c7input).map
        (fun p => p.1.lookup "quality_score") = .ok (some (.num (67 / 100))) ∧
    (qa_process (fun _ => true) 5000000 (.ok c7metaNoAudio) c7llmA c7input).map
        (fun p => (p.1.lookup "technical_check").bind (fun j => j.lookup "score")) =
      .ok (some (.num (3 / 4))) ∧
    (qa_process (fun _ => true) 5000000 (.ok c7metaNoAudio) c7llmA c7input).map
        (fun p => (p.1.lookup "content_check").bind (fun j => j.lookup "score")) =
      .ok (some (.num (63 / 100))) ∧
    (67 : ℚ) / 100 ≠ (3 / 4) * (3 / 10) + (63 / 100) * (7 / 10) ∧
    (qa_process (fun _ => true) 5000000 (.ok c7metaAudio) c7llmB c7input).map
        (fun p => p.1.lookup "quality_score") = .ok (some (.num (73 / 10))) ∧
    ¬ ((73 : ℚ) / 10 ≤ 1) :=
  ⟨by with_unfolding_all rfl, by with_unfolding_all rfl, by with_unfolding_all rfl,
   by norm_num, by with_unfolding_all rfl, by norm_num⟩

end AdGen
